import Mathlib

/-!
Verification of the CSV roster partition application (src/app.py).

The development shallowly embeds the parts of `app.py` that the spec talks
about: the partition function `select_and_process_csv`, the serializer
`write_results_to_csv`, the extension filter `allowed_file`, the retention
sweep `cleanup_old_results`, the request handler `index` and the download
endpoint `download_file`.

Conventions of the embedding:
- A pandas dataframe is modelled at the cell-text level: each column is a
  list of strings, and the empty string stands for a blank cell (pandas
  NaN, which a csv file stores as an empty field).
- The randomness of `Series.sample` is made explicit: `sample(n=n)` is
  given by a list `sel` of row positions and `sample(frac=1)` by a list
  `perm` of positions; validity of those draws (`ValidSample`,
  `ValidShuffle`) is a hypothesis of the theorems, mirroring what pandas
  guarantees about its random draws.
- Python exceptions become an error type `PyError`; a fallible operation
  returns `Except PyError`.
-/

namespace App

/-- A parsed tabular dataset: the named columns in order, each with its
list of cell values.  Mirrors the dataframe that `pd.read_csv` produces in
`select_and_process_csv` (src/app.py line 69). -/
structure DataFrame where
  cols : List (String × List String)
deriving DecidableEq, Repr

/-- The column names of the dataset (`df.columns`). -/
def DataFrame.columns (df : DataFrame) : List String :=
  df.cols.map Prod.fst

/-- Column access `df[c]`: the cell values of the first column named `c`
(empty when the column is absent; the function is only reached after the
membership check in `select_and_process_csv`). -/
def DataFrame.getCol (df : DataFrame) (c : String) : List String :=
  match df.cols.find? (fun p => p.fst == c) with
  | some p => p.snd
  | none => []

/-- The Python exceptions raised by the code under verification.  The two
`ValueError`s of `select_and_process_csv` are distinguished by their
message text in the source, hence by constructor here. -/
inductive PyError
  | schemaError (column_name : String)
  | insufficientDataError (n : Nat)
  | typeError (msg : String)
  | nameError (name : String)
  | parserError
  | osError (msg : String)
deriving DecidableEq, Repr

/-- Python `str(e)`, as used by `flash(str(e))` in the handler
(src/app.py line 161). -/
def pyStr : PyError → String
  | .schemaError c => "Column " ++ c ++ " not found in the CSV file"
  | .insufficientDataError n =>
      "Not enough people in the list to select " ++ toString n ++ " people"
  | .typeError m => m
  | .nameError n => "name " ++ n ++ " is not defined"
  | .parserError => "Error tokenizing data"
  | .osError m => m

/-- The partition function (src/app.py lines 68-94).  `n` is the form
value `num_people`, `none` when the form field was missing or
non-numeric: comparing `len(people_list) < None` then raises a
`TypeError`.  `sel` is the random draw of `people_list.sample(n=n)` (row
positions, in drawn order); `perm` the draw of the
`remaining_people.sample(frac=1)` shuffle. -/
def select_and_process_csv (df : DataFrame) (column_name : String)
    (n : Option Nat) (sel perm : List Nat) :
    Except PyError (List String × List String) :=
  if column_name ∈ df.columns then
    let people_list := df.getCol column_name
    match n with
    | none => .error (.typeError "not supported between instances of int and NoneType")
    | some k =>
      if people_list.length < k then
        .error (.insufficientDataError k)
      else
        let selected_people := sel.map (fun i => people_list.getD i "")
        let remaining_base :=
          ((List.range people_list.length).filter (fun i => !(sel.contains i))).map
            (fun i => people_list.getD i "")
        let remaining_people := perm.map (fun i => remaining_base.getD i "")
        .ok (selected_people, remaining_people)
  else .error (.schemaError column_name)

/-- Validity of the draw made by `people_list.sample(n=n)` on `m` rows:
`n` distinct row positions, each below `m`. -/
def ValidSample (sel : List Nat) (m n : Nat) : Prop :=
  sel.Nodup ∧ sel.length = n ∧ ∀ i ∈ sel, i < m

/-- Validity of the draw made by `sample(frac=1)` on `k` rows: a
permutation of the `k` positions. -/
def ValidShuffle (perm : List Nat) (k : Nat) : Prop :=
  perm.Perm (List.range k)

instance (sel : List Nat) (m n : Nat) : Decidable (ValidSample sel m n) := by
  unfold ValidSample
  infer_instance

instance (perm : List Nat) (k : Nat) : Decidable (ValidShuffle perm k) := by
  unfold ValidShuffle
  infer_instance

/-- Reading every position of a list in order reproduces the list. -/
theorem map_getD_range (l : List String) (d : String) :
    (List.range l.length).map (fun i => l.getD i d) = l := by
  apply List.ext_getElem
  · simp
  · intro i h1 h2
    simp only [List.getElem_map, List.getElem_range]
    exact List.getD_eq_getElem l d h2

/-- Applying a valid shuffle permutes the list. -/
theorem perm_of_validShuffle (l : List String) (perm : List Nat) (d : String)
    (h : ValidShuffle perm l.length) :
    (perm.map (fun i => l.getD i d)).Perm l := by
  have h1 := h.map (fun i => l.getD i d)
  rwa [map_getD_range l d] at h1

/-- A valid sample together with the unsampled positions is a permutation
of all positions. -/
theorem sample_split_perm (sel : List Nat) (m n : Nat)
    (h : ValidSample sel m n) :
    (sel ++ (List.range m).filter (fun i => !(sel.contains i))).Perm
      (List.range m) := by
  obtain ⟨hnd, hlen, hbound⟩ := h
  have h1 : sel.Perm ((List.range m).filter (fun i => sel.contains i)) := by
    rw [List.perm_ext_iff_of_nodup hnd (List.Nodup.filter _ (List.nodup_range m))]
    intro a
    simp only [List.mem_filter, List.mem_range, List.elem_eq_mem, decide_eq_true_eq]
    exact ⟨fun ha => ⟨hbound a ha, ha⟩, fun ha => ha.2⟩
  exact (h1.append_right _).trans (List.filter_append_perm _ (List.range m))

/-- On a valid input (column present, enough rows) the partition function
returns the sampled names and the shuffled complement. -/
theorem select_eq_ok (df : DataFrame) (column_name : String) (k : Nat)
    (sel perm : List Nat)
    (hcol : column_name ∈ df.columns) (hk : k ≤ (df.getCol column_name).length) :
    select_and_process_csv df column_name (some k) sel perm =
      .ok (sel.map (fun i => (df.getCol column_name).getD i ""),
        perm.map (fun i =>
          (((List.range (df.getCol column_name).length).filter
              (fun i => !(sel.contains i))).map
            (fun i => (df.getCol column_name).getD i "")).getD i "")) := by
  simp [select_and_process_csv, hcol, Nat.not_lt.mpr hk]

/-- The unsampled part of the roster has `m - n` entries. -/
theorem remaining_base_length (l : List String) (sel : List Nat) (n : Nat)
    (hsel : ValidSample sel l.length n) :
    (((List.range l.length).filter (fun i => !(sel.contains i))).map
      (fun i => l.getD i "")).length = l.length - n := by
  have h := (sample_split_perm sel l.length n hsel).length_eq
  have hn : sel.length = n := hsel.2.1
  simp only [List.length_append, List.length_range] at h
  simp only [List.length_map]
  omega

/-- Selected and remaining names together are a permutation of the
roster names. -/
theorem partition_perm (l : List String) (sel perm : List Nat) (n : Nat)
    (hsel : ValidSample sel l.length n)
    (hperm : ValidShuffle perm (l.length - n)) :
    (sel.map (fun i => l.getD i "") ++
      perm.map (fun i =>
        (((List.range l.length).filter (fun i => !(sel.contains i))).map
          (fun i => l.getD i "")).getD i "")).Perm l := by
  set rembase := ((List.range l.length).filter (fun i => !(sel.contains i))).map
    (fun i => l.getD i "") with hrb
  have hlen : rembase.length = l.length - n := remaining_base_length l sel n hsel
  have h1 : (perm.map (fun i => rembase.getD i "")).Perm rembase := by
    refine perm_of_validShuffle rembase perm "" ?_
    show perm.Perm (List.range rembase.length)
    rw [hlen]
    exact hperm
  have h2 : (sel.map (fun i => l.getD i "") ++ rembase).Perm l := by
    rw [hrb, ← List.map_append]
    have h3 := (sample_split_perm sel l.length n hsel).map (fun i => l.getD i "")
    rwa [map_getD_range] at h3
  exact (List.Perm.append_left _ h1).trans h2

/-- Claim C1: for every roster whose name column exists and whose row count
`m` satisfies `m ≥ n`, with `n` a positive integer, the partition returns a
pair with `|selected| = n` and `|remaining| = m - n`. -/
theorem C1_partition_sizes (df : DataFrame) (column_name : String) (n : Nat)
    (sel perm : List Nat)
    (hn : 0 < n)
    (hcol : column_name ∈ df.columns)
    (hm : n ≤ (df.getCol column_name).length)
    (hsel : ValidSample sel (df.getCol column_name).length n)
    (hperm : ValidShuffle perm ((df.getCol column_name).length - n)) :
    ∃ selected remaining,
      select_and_process_csv df column_name (some n) sel perm =
        .ok (selected, remaining) ∧
      selected.length = n ∧
      remaining.length = (df.getCol column_name).length - n := by
  refine ⟨_, _, select_eq_ok df column_name n sel perm hcol hm, ?_, ?_⟩
  · simp [hsel.2.1]
  · have h := hperm.length_eq
    simp only [List.length_range] at h
    simpa using h

/-- Witness for C1 at a concrete three-person roster with n = 2. -/
theorem C1_partition_sizes_witness :
    ∃ selected remaining,
      select_and_process_csv ⟨[("Name", ["A", "B", "C"])]⟩ "Name" (some 2)
        [2, 0] [0] = .ok (selected, remaining) ∧
      selected.length = 2 ∧
      remaining.length =
        (DataFrame.getCol ⟨[("Name", ["A", "B", "C"])]⟩ "Name").length - 2 :=
  C1_partition_sizes ⟨[("Name", ["A", "B", "C"])]⟩ "Name" 2 [2, 0] [0]
    (by decide) (by decide) (by decide) (by decide) (by decide)

/-- Claim C2 counterexample: on the roster ["A", "A"] (name column present,
2 rows ≥ n = 1) with a valid sample draw and a valid shuffle draw, the
partition returns selected = ["A"] and remaining = ["A"], whose
intersection as sets is not empty — the claim fails for rosters with
duplicate names. -/
theorem C2_cover_disjoint_counterexample :
    ValidSample [0] 2 1 ∧ ValidShuffle [0] 1 ∧
    select_and_process_csv ⟨[("Name", ["A", "A"])]⟩ "Name" (some 1) [0] [0] =
      .ok (["A"], ["A"]) ∧
    (["A"] : List String).toFinset ∩ (["A"] : List String).toFinset ≠ ∅ := by
  refine ⟨by decide, by decide, by rfl, ?_⟩
  decide

/-- Claim C2 (amended: the roster names must be pairwise distinct): for
every valid roster with no duplicate names, selected and remaining are
disjoint as sets, their union is the set of roster names, and every roster
name appears in exactly one of the two sequences. -/
theorem C2_cover_disjoint (df : DataFrame) (column_name : String) (n : Nat)
    (sel perm : List Nat)
    (hcol : column_name ∈ df.columns)
    (hm : n ≤ (df.getCol column_name).length)
    (hsel : ValidSample sel (df.getCol column_name).length n)
    (hperm : ValidShuffle perm ((df.getCol column_name).length - n))
    (hnodup : (df.getCol column_name).Nodup) :
    ∃ selected remaining,
      select_and_process_csv df column_name (some n) sel perm =
        .ok (selected, remaining) ∧
      selected.toFinset ∩ remaining.toFinset = ∅ ∧
      selected.toFinset ∪ remaining.toFinset = (df.getCol column_name).toFinset ∧
      ∀ x ∈ df.getCol column_name,
        (x ∈ selected ∧ x ∉ remaining) ∨ (x ∈ remaining ∧ x ∉ selected) := by
  refine ⟨_, _, select_eq_ok df column_name n sel perm hcol hm, ?_, ?_, ?_⟩
  all_goals
    have hp := partition_perm (df.getCol column_name) sel perm n hsel hperm
  all_goals
    have hnd := hp.nodup_iff.mpr hnodup
  all_goals
    rw [List.nodup_append] at hnd
  · rw [Finset.eq_empty_iff_forall_not_mem]
    intro x hx
    rw [Finset.mem_inter, List.mem_toFinset, List.mem_toFinset] at hx
    exact hnd.2.2 hx.1 hx.2
  · rw [← List.toFinset_append]
    exact List.toFinset_eq_of_perm _ _ hp
  · intro x hx
    have hmem : x ∈ _ ++ _ := hp.mem_iff.mpr hx
    rcases List.mem_append.mp hmem with h | h
    · exact Or.inl ⟨h, fun hr => hnd.2.2 h hr⟩
    · exact Or.inr ⟨h, fun hs => hnd.2.2 hs h⟩

/-- Witness for the amended C2 at a concrete duplicate-free roster. -/
theorem C2_cover_disjoint_witness :
    ∃ selected remaining,
      select_and_process_csv ⟨[("Name", ["A", "B", "C"])]⟩ "Name" (some 1)
        [1] [1, 0] = .ok (selected, remaining) ∧
      selected.toFinset ∩ remaining.toFinset = ∅ ∧
      selected.toFinset ∪ remaining.toFinset =
        (DataFrame.getCol ⟨[("Name", ["A", "B", "C"])]⟩ "Name").toFinset ∧
      ∀ x ∈ DataFrame.getCol ⟨[("Name", ["A", "B", "C"])]⟩ "Name",
        (x ∈ selected ∧ x ∉ remaining) ∨ (x ∈ remaining ∧ x ∉ selected) :=
  C2_cover_disjoint ⟨[("Name", ["A", "B", "C"])]⟩ "Name" 1 [1] [1, 0]
    (by decide) (by decide) (by decide) (by decide) (by decide)

/-- Claim C3: the partition raises the schema error exactly when the column
is absent; with the column present it raises the insufficient-data error
exactly when the row count is below `n`; otherwise it returns normally. -/
theorem C3_error_conditions (df : DataFrame) (column_name : String) (n : Nat)
    (sel perm : List Nat) :
    (select_and_process_csv df column_name (some n) sel perm =
        .error (.schemaError column_name) ↔ column_name ∉ df.columns) ∧
    (column_name ∈ df.columns →
      (select_and_process_csv df column_name (some n) sel perm =
          .error (.insufficientDataError n) ↔
        (df.getCol column_name).length < n)) ∧
    (column_name ∈ df.columns → n ≤ (df.getCol column_name).length →
      ∃ p, select_and_process_csv df column_name (some n) sel perm = .ok p) := by
  refine ⟨?_, fun hcol => ?_, fun hcol hle => ?_⟩
  · by_cases hcol : column_name ∈ df.columns
    · by_cases hlt : (df.getCol column_name).length < n
      · simp [select_and_process_csv, hcol, hlt]
      · simp [select_and_process_csv, hcol, hlt]
    · simp [select_and_process_csv, hcol]
  · by_cases hlt : (df.getCol column_name).length < n
    · simp [select_and_process_csv, hcol, hlt]
    · simp [select_and_process_csv, hcol, hlt]
  · exact ⟨_, select_eq_ok df column_name n sel perm hcol hle⟩

/-- Witness for C3: a roster without the requested column yields the schema
error, by the first part of the theorem. -/
theorem C3_error_conditions_witness :
    select_and_process_csv ⟨[("Name", ["A", "B"])]⟩ "Age" (some 1) [0] [0] =
      .error (.schemaError "Age") :=
  (C3_error_conditions ⟨[("Name", ["A", "B"])]⟩ "Age" 1 [0] [0]).1.mpr
    (by decide)

/-- Pandas pads the shorter of the two series with NaN when they are
assembled into one dataframe; `to_csv` writes a NaN cell as an empty
field, modelled as the empty string. -/
def padRight (l : List String) (k : Nat) : List String :=
  l ++ List.replicate (k - l.length) ""

/-- The table written by `write_results_to_csv` (src/app.py lines 96-104):
the header row and the data rows, each row holding its Selected People cell
and its Remaining People cell, blank cells padding the shorter column. -/
def write_results_to_csv (selected_people remaining_people : List String) :
    List String × List (String × String) :=
  let k := max selected_people.length remaining_people.length
  (["Selected People", "Remaining People"],
    (padRight selected_people k).zip (padRight remaining_people k))

/-- Reading the written table back, concatenating the two columns and
dropping blank cells. -/
def readBackNames (table : List (String × String)) : List String :=
  (table.map Prod.fst ++ table.map Prod.snd).filter (fun s => !(s == ""))

theorem padRight_length (l : List String) (k : Nat) (h : l.length ≤ k) :
    (padRight l k).length = k := by
  simp only [padRight, List.length_append, List.length_replicate]
  omega

theorem filter_replicate_blank (j : Nat) :
    (List.replicate j "").filter (fun s => !(s == "")) = [] := by
  induction j with
  | zero => rfl
  | succ j ih => simp [List.replicate_succ, List.filter_cons, ih]

theorem filter_blank_of_not_mem (l : List String) (h : "" ∉ l) :
    l.filter (fun s => !(s == "")) = l := by
  apply List.filter_eq_self.mpr
  intro a ha
  simp only [Bool.not_eq_true', beq_eq_false_iff_ne, ne_eq]
  intro he
  exact h (he ▸ ha)

theorem filter_padRight (l : List String) (k : Nat) (h : "" ∉ l) :
    (padRight l k).filter (fun s => !(s == "")) = l := by
  rw [padRight, List.filter_append, filter_replicate_blank,
    filter_blank_of_not_mem l h, List.append_nil]

/-- Dropping blanks from the two written columns gives back the two
sequences, provided neither contains a blank name. -/
theorem readBackNames_write (s r : List String) (hs : "" ∉ s) (hr : "" ∉ r) :
    readBackNames (write_results_to_csv s r).2 = s ++ r := by
  have hls : (padRight s (max s.length r.length)).length =
      max s.length r.length := padRight_length _ _ (Nat.le_max_left _ _)
  have hlr : (padRight r (max s.length r.length)).length =
      max s.length r.length := padRight_length _ _ (Nat.le_max_right _ _)
  rw [readBackNames, write_results_to_csv]
  rw [List.map_fst_zip _ _ (by rw [hls, hlr]),
    List.map_snd_zip _ _ (by rw [hls, hlr]),
    List.filter_append, filter_padRight s _ hs, filter_padRight r _ hr]

/-- Claim C4 counterexample: the roster with a blank name cell and the name
A, partitioned with valid draws, yields selected = [the blank] and
remaining = [A]; reading the written table back and dropping blanks loses
the blank entry, so the read-back set differs from the roster set. -/
theorem C4_roundtrip_counterexample :
    ValidSample [0] 2 1 ∧ ValidShuffle [0] 1 ∧
    select_and_process_csv ⟨[("Name", ["", "A"])]⟩ "Name" (some 1) [0] [0] =
      .ok ([""], ["A"]) ∧
    (readBackNames (write_results_to_csv [""] ["A"]).2).toFinset ≠
      (DataFrame.getCol ⟨[("Name", ["", "A"])]⟩ "Name").toFinset := by
  refine ⟨by decide, by decide, by rfl, by decide⟩

/-- Claim C4 (amended: no roster name is blank): writing a partition result
as the two-column table and reading it back, concatenating the columns and
dropping the blank padding, reproduces the roster names exactly — as a
permutation of the roster, hence with equal name sets, no duplicates
introduced and no loss. -/
theorem C4_roundtrip (df : DataFrame) (column_name : String) (n : Nat)
    (sel perm : List Nat)
    (hcol : column_name ∈ df.columns)
    (hm : n ≤ (df.getCol column_name).length)
    (hsel : ValidSample sel (df.getCol column_name).length n)
    (hperm : ValidShuffle perm ((df.getCol column_name).length - n))
    (hblank : "" ∉ df.getCol column_name) :
    ∃ selected remaining,
      select_and_process_csv df column_name (some n) sel perm =
        .ok (selected, remaining) ∧
      (readBackNames (write_results_to_csv selected remaining).2).Perm
        (df.getCol column_name) ∧
      (readBackNames (write_results_to_csv selected remaining).2).toFinset =
        (df.getCol column_name).toFinset := by
  refine ⟨_, _, select_eq_ok df column_name n sel perm hcol hm, ?_, ?_⟩
  all_goals
    have hp := partition_perm (df.getCol column_name) sel perm n hsel hperm
  all_goals
    have hs : "" ∉ sel.map (fun i => (df.getCol column_name).getD i "") :=
      fun hmem => hblank (hp.subset (List.mem_append_left _ hmem))
  all_goals
    have hr : "" ∉ List.map (fun i =>
        (((List.range (df.getCol column_name).length).filter
            (fun i => !(sel.contains i))).map
          (fun i => (df.getCol column_name).getD i "")).getD i "") perm :=
      fun hmem => hblank (hp.subset (List.mem_append_right _ hmem))
  · rw [readBackNames_write _ _ hs hr]
    exact hp
  · rw [readBackNames_write _ _ hs hr]
    exact List.toFinset_eq_of_perm _ _ hp

/-- Witness for the amended C4 at a concrete roster of three nonblank
names. -/
theorem C4_roundtrip_witness :
    ∃ selected remaining,
      select_and_process_csv ⟨[("Name", ["A", "B", "C"])]⟩ "Name" (some 2)
        [0, 2] [0] = .ok (selected, remaining) ∧
      (readBackNames (write_results_to_csv selected remaining).2).Perm
        (DataFrame.getCol ⟨[("Name", ["A", "B", "C"])]⟩ "Name") ∧
      (readBackNames (write_results_to_csv selected remaining).2).toFinset =
        (DataFrame.getCol ⟨[("Name", ["A", "B", "C"])]⟩ "Name").toFinset :=
  C4_roundtrip ⟨[("Name", ["A", "B", "C"])]⟩ "Name" 2 [0, 2] [0]
    (by decide) (by decide) (by decide) (by decide) (by decide)

/-- Python str.lower on one character, restricted to ASCII — the alphabet
that matters for comparing an extension with csv. -/
def py_lower_char (c : Char) : Char :=
  if 'A' ≤ c ∧ c ≤ 'Z' then Char.ofNat (c.toNat + 32) else c

/-- Python str.lower over the characters of a string. -/
def py_lower (cs : List Char) : List Char :=
  cs.map py_lower_char

/-- Python filename.rsplit(sep, 1)[1]: the characters after the last
occurrence of sep (only reached after checking that sep occurs). -/
def rsplit_last (cs : List Char) (sep : Char) : List Char :=
  (cs.reverse.takeWhile (fun c => c != sep)).reverse

/-- src/app.py line 43. -/
def ALLOWED_EXTENSIONS : List (List Char) :=
  ["csv".toList]

/-- The extension filter (src/app.py lines 45-46). -/
def allowed_file (filename : String) : Bool :=
  filename.toList.contains '.' &&
    ALLOWED_EXTENSIONS.contains (py_lower (rsplit_last filename.toList '.'))

theorem takeWhile_append_sat {α : Type} (p : α → Bool) (l1 l2 : List α) (b : α)
    (h1 : ∀ a ∈ l1, p a = true) (hb : p b = false) :
    (l1 ++ b :: l2).takeWhile p = l1 := by
  induction l1 with
  | nil => simp [List.takeWhile_cons, hb]
  | cons a l ih =>
    have ha := h1 a (List.mem_cons_self a l)
    simp [List.takeWhile_cons, ha, ih (fun x hx => h1 x (List.mem_cons_of_mem a hx))]

/-- rsplit at the last separator, on a string given in split form. -/
theorem rsplit_last_append (s t : List Char) (ht : '.' ∉ t) :
    rsplit_last (s ++ '.' :: t) '.' = t := by
  have h1 : (s ++ '.' :: t).reverse = t.reverse ++ '.' :: s.reverse := by
    simp [List.reverse_append]
  rw [rsplit_last, h1, takeWhile_append_sat _ _ _ _ ?_ ?_, List.reverse_reverse]
  · intro a ha
    simp only [bne_iff_ne, ne_eq]
    exact fun he => ht (he ▸ List.mem_reverse.mp ha)
  · simp

/-- The extension filter accepts exactly the filenames of the form
base ++ dot ++ ext with no further dot in ext and ext lowercasing to
csv. -/
theorem allowed_file_iff (f : String) :
    allowed_file f = true ↔
      ∃ s t : List Char, f.toList = s ++ '.' :: t ∧ '.' ∉ t ∧
        py_lower t = "csv".toList := by
  constructor
  · intro h
    rw [allowed_file, Bool.and_eq_true] at h
    obtain ⟨hdot, hext⟩ := h
    have hmem : '.' ∈ f.toList := by simpa using hdot
    have hne : f.toList.reverse.dropWhile (fun c => c != '.') ≠ [] := by
      intro hnil
      rw [List.dropWhile_eq_nil_iff] at hnil
      have h2 := hnil _ (List.mem_reverse.mpr hmem)
      simp at h2
    have hhead : ((f.toList.reverse.dropWhile (fun c => c != '.')).head hne) = '.' := by
      have h3 := List.head_dropWhile_not (fun c => c != '.') f.toList.reverse hne
      simpa using h3
    have hsplit := (List.takeWhile_append_dropWhile
      (p := fun c => c != '.') (l := f.toList.reverse)).symm
    rw [← List.head_cons_tail _ hne, hhead] at hsplit
    have hform : f.toList =
        (f.toList.reverse.dropWhile (fun c => c != '.')).tail.reverse ++
          '.' :: (f.toList.reverse.takeWhile (fun c => c != '.')).reverse := by
      have h4 := congrArg List.reverse hsplit
      simpa [List.reverse_append] using h4
    refine ⟨_, _, hform, ?_, ?_⟩
    · intro ha
      have h5 := List.mem_takeWhile_imp (List.mem_reverse.mp ha)
      simp at h5
    · simpa [rsplit_last, ALLOWED_EXTENSIONS] using hext
  · rintro ⟨s, t, hf, ht, hlow⟩
    rw [allowed_file, Bool.and_eq_true]
    constructor
    · rw [hf]
      simp
    · rw [hf, rsplit_last_append s t ht, hlow]
      simp [ALLOWED_EXTENSIONS]

/-- A directory entry of the results folder: its name, its modification
time (seconds), and whether os.path.isfile holds of it. -/
structure FsFile where
  name : String
  mtime : Int
  regular : Bool
deriving DecidableEq, Repr

/-- The retention sweep (src/app.py lines 48-66): every regular file of
the results folder whose mtime is below `now - days * 24 * 60 * 60` is
removed; os.remove may fail and the failure is swallowed (best effort),
modelled by the `removeOk` predicate saying which removals succeed. -/
def cleanup_old_results (now : Int) (days : Int) (removeOk : String → Bool)
    (folder : List FsFile) : List FsFile :=
  folder.filter (fun f =>
    !(f.regular && decide (f.mtime < now - days * 24 * 60 * 60) && removeOk f.name))

/-- The parts of an inbound request that the index handler reads: the
method, the file part with its client-side filename and (parsed) content,
and the two form fields.  A form field is `none` when missing or not
parseable as an integer (request.form.get with type=int). -/
structure HttpRequest where
  methodPost : Bool
  hasFilePart : Bool
  filename : String
  content : DataFrame
  num_people : Option Nat
  delay : Option Int

/-- The ambient effects the handler draws on: the clock, which os.remove
calls succeed, the two random draws of the partition, whether pd.read_csv
itself raises on the uploaded file, whether to_csv raises (and with what
error), whether a raising to_csv had already created the output file when
the exception hit (to_csv opens the file and writes it incrementally, so
a mid-write failure leaves a partially written file behind, while a
failure before the open leaves none), the werkzeug secure_filename
sanitizer, and the timestamp and uuid used to build the results
filename. -/
structure Env where
  now : Int
  removeOk : String → Bool
  sel : List Nat
  perm : List Nat
  readFails : Bool
  writeErr : Option PyError
  writeCreated : Bool
  sfn : String → String
  ts : String
  guid : String

/-- The two on-disk folders the handler touches. -/
structure ServerState where
  uploads : List String
  results : List FsFile

inductive Response
  | redirectBack
  | renderIndex
  | renderResults (selected remaining : List String)
      (results_filename : String) (delay_ms : Int)
deriving DecidableEq, Repr

/-- How a request ends: a normal response, or an exception escaping the
handler (a 500 from the framework, no flash, no redirect). -/
inductive Outcome
  | done (r : Response)
  | uncaught (e : PyError)
deriving DecidableEq, Repr

structure HandlerResult where
  outcome : Outcome
  flashes : List String
  uploads : List String
  results : List FsFile
deriving DecidableEq, Repr

/-- Python filename.rsplit(sep, 1)[0]: the characters before the last
occurrence of sep, or the whole string when sep does not occur. -/
def rsplit_head (cs : List Char) (sep : Char) : List Char :=
  if cs.contains sep then ((cs.reverse.dropWhile (fun c => c != sep)).drop 1).reverse
  else cs

/-- The output artifact name (src/app.py line 148). -/
def results_filename (upload_name ts guid : String) : String :=
  "results_" ++ String.mk (rsplit_head upload_name.toList '.') ++ "_" ++ ts ++
    "_" ++ guid ++ ".csv"

/-- The body of the try block up to the partition call: pd.read_csv on
the saved upload followed by select_and_process_csv (src/app.py
line 137).  `readFails` models read_csv itself raising on a malformed
file. -/
def parse_step (env : Env) (content : DataFrame) (num_people : Option Nat) :
    Except PyError (List String × List String) :=
  if env.readFails then .error .parserError
  else select_and_process_csv content "Name" num_people env.sel env.perm

/-- The index request handler (src/app.py lines 106-163).  Mirrors the
source control flow: sweep, file-part and filename guards, form reads
(the delay multiplication sits before the extension check and outside the
try block), extension check, save, then the try block around parsing and
writing whose except clause flashes str(e) and redirects.  When to_csv
raises (env.writeErr = some e) after having created the output file
(env.writeCreated), the partially written results file stays in the
results folder: the except clause does not delete it. -/
def index (req : HttpRequest) (env : Env) (st : ServerState) : HandlerResult :=
  let results1 := cleanup_old_results env.now 1 env.removeOk st.results
  if req.methodPost then
    if !req.hasFilePart then
      ⟨.done .redirectBack, ["No file part"], st.uploads, results1⟩
    else if req.filename == "" then
      ⟨.done .redirectBack, ["No selected file"], st.uploads, results1⟩
    else
      match req.delay with
      | none =>
        ⟨.uncaught (.typeError "unsupported operand types for mul NoneType and int"),
          [], st.uploads, results1⟩
      | some d =>
        let delay_ms := d * 1000
        if allowed_file req.filename then
          let filename := env.sfn req.filename
          let uploads1 := st.uploads ++ [filename]
          match parse_step env req.content req.num_people with
          | .error e => ⟨.done .redirectBack, [pyStr e], uploads1, results1⟩
          | .ok (selected_people, remaining_people) =>
            let rname := results_filename filename env.ts env.guid
            match env.writeErr with
            | some e =>
              ⟨.done .redirectBack, [pyStr e], uploads1,
                results1 ++ if env.writeCreated then [⟨rname, env.now, true⟩] else []⟩
            | none =>
              ⟨.done (.renderResults selected_people remaining_people rname delay_ms),
                [], uploads1.erase filename,
                results1 ++ [⟨rname, env.now, true⟩]⟩
        else ⟨.done .renderIndex, [], st.uploads, results1⟩
  else ⟨.done .renderIndex, [], st.uploads, results1⟩

/-- The names bound by the flask import in src/app.py line 4. -/
def flask_imports : List String :=
  ["Flask", "redirect", "url_for", "session", "request", "render_template",
    "flash"]

/-- The module-level names in scope inside the handlers of src/app.py:
the imports of lines 1-9 and the module-level definitions. -/
def module_names : List String :=
  flask_imports ++
    ["os", "pd", "datetime", "OAuth", "secure_filename", "uuid", "time",
      "wraps", "app", "oauth", "auth_provider", "login_required",
      "ALLOWED_EXTENSIONS", "allowed_file", "cleanup_old_results",
      "select_and_process_csv", "write_results_to_csv", "index", "login",
      "download_file", "auth_callback", "logout"]

inductive DownloadResult
  | attachment (filename : String)
  | notFound
deriving DecidableEq, Repr

/-- The download endpoint (src/app.py lines 169-173): it evaluates the
name send_from_directory in module scope and calls it on the results
folder; an unbound name raises NameError at request time. -/
def download_file (filename : String) (results : List FsFile) :
    Except PyError DownloadResult :=
  if module_names.contains "send_from_directory" then
    if results.any (fun f => f.name == filename && f.regular) then
      .ok (.attachment filename)
    else .ok .notFound
  else .error (.nameError "send_from_directory")

/-- Claim C5 counterexample: a one-person request over the roster [A]
parses fine, then to_csv raises disk full after having created the output
file.  The handler does catch, flash and redirect — but the partially
written file results_r_t_g.csv referencing the failed run stays in the
results folder, so the claim as stated fails. -/
theorem C5_error_boundary_counterexample :
    (index ⟨true, true, "r.csv", ⟨[("Name", ["A"])]⟩, some 1, some 1⟩
      ⟨0, fun _ => true, [0], [], false, some (.osError "disk full"), true,
        fun s => s, "t", "g"⟩ ⟨[], []⟩).outcome = .done .redirectBack ∧
    (index ⟨true, true, "r.csv", ⟨[("Name", ["A"])]⟩, some 1, some 1⟩
      ⟨0, fun _ => true, [0], [], false, some (.osError "disk full"), true,
        fun s => s, "t", "g"⟩ ⟨[], []⟩).flashes = ["disk full"] ∧
    results_filename "r.csv" "t" "g" ∈
      ((index ⟨true, true, "r.csv", ⟨[("Name", ["A"])]⟩, some 1, some 1⟩
        ⟨0, fun _ => true, [0], [], false, some (.osError "disk full"), true,
          fun s => s, "t", "g"⟩ ⟨[], []⟩).results.map FsFile.name) := by
  refine ⟨by rfl, by rfl, ?_⟩
  decide

/-- Claim C5 (amended: the no-leftover-file guarantee holds for parse
failures, while a raising to_csv may leave its partially written file):
whenever parsing or writing raises inside the try block, the handler
catches it, flashes str(e) and redirects back to the form; on a parse
failure the results folder is exactly the swept pre-request folder, and
on a write failure it is the swept folder plus the partially written
results file of the failed run when to_csv had already created it — the
except clause never deletes that file. -/
theorem C5_error_boundary (req : HttpRequest) (env : Env) (st : ServerState)
    (d : Int)
    (hpost : req.methodPost = true)
    (hpart : req.hasFilePart = true)
    (hname : req.filename ≠ "")
    (hdelay : req.delay = some d)
    (hallowed : allowed_file req.filename = true) :
    (∀ e, parse_step env req.content req.num_people = .error e →
      (index req env st).outcome = .done .redirectBack ∧
      (index req env st).flashes = [pyStr e] ∧
      (index req env st).results =
        cleanup_old_results env.now 1 env.removeOk st.results) ∧
    (∀ p e, parse_step env req.content req.num_people = .ok p →
      env.writeErr = some e →
      (index req env st).outcome = .done .redirectBack ∧
      (index req env st).flashes = [pyStr e] ∧
      (index req env st).results =
        cleanup_old_results env.now 1 env.removeOk st.results ++
          if env.writeCreated then
            [⟨results_filename (env.sfn req.filename) env.ts env.guid,
              env.now, true⟩]
          else []) := by
  constructor
  · intro e he
    refine ⟨?_, ?_, ?_⟩ <;>
      simp [index, hpost, hpart, hname, hdelay, hallowed, he]
  · intro p e hp he
    obtain ⟨s, r⟩ := p
    refine ⟨?_, ?_, ?_⟩ <;>
      simp [index, hpost, hpart, hname, hdelay, hallowed, hp, he]

/-- Witness for the amended C5: a five-person request over an empty
roster fails parsing and is flashed and redirected with the results
folder left as swept, by the first part of the theorem. -/
theorem C5_error_boundary_witness :
    (index ⟨true, true, "r.csv", ⟨[("Name", [])]⟩, some 5, some 1⟩
      ⟨0, fun _ => true, [0], [0], false, none, false, fun s => s, "t", "g"⟩
      ⟨[], []⟩).outcome = .done .redirectBack ∧
    (index ⟨true, true, "r.csv", ⟨[("Name", [])]⟩, some 5, some 1⟩
      ⟨0, fun _ => true, [0], [0], false, none, false, fun s => s, "t", "g"⟩
      ⟨[], []⟩).flashes = [pyStr (.insufficientDataError 5)] ∧
    (index ⟨true, true, "r.csv", ⟨[("Name", [])]⟩, some 5, some 1⟩
      ⟨0, fun _ => true, [0], [0], false, none, false, fun s => s, "t", "g"⟩
      ⟨[], []⟩).results =
      cleanup_old_results 0 1 (fun _ => true) [] :=
  (C5_error_boundary ⟨true, true, "r.csv", ⟨[("Name", [])]⟩, some 5, some 1⟩
    ⟨0, fun _ => true, [0], [0], false, none, false, fun s => s, "t", "g"⟩
    ⟨[], []⟩ 1 (by rfl) (by rfl) (by decide) (by rfl) (by decide)).1
    (.insufficientDataError 5) (by rfl)

/-- Claim C6: a filename passes allowed_file exactly when it has a dot and
the text after its last dot, lowercased, is csv; and a request whose file
fails the check is turned away before any partition logic — the handler
falls through to the form page with nothing flashed, nothing saved and
nothing written. -/
theorem C6_extension_filter (f : String) (req : HttpRequest) (env : Env)
    (st : ServerState) (d : Int)
    (hpost : req.methodPost = true)
    (hpart : req.hasFilePart = true)
    (hname : req.filename ≠ "")
    (hdelay : req.delay = some d)
    (hrej : allowed_file req.filename = false) :
    (allowed_file f = true ↔
      ∃ s t : List Char, f.toList = s ++ '.' :: t ∧ '.' ∉ t ∧
        py_lower t = "csv".toList) ∧
    (index req env st).outcome = .done .renderIndex ∧
    (index req env st).flashes = [] ∧
    (index req env st).uploads = st.uploads ∧
    (index req env st).results =
      cleanup_old_results env.now 1 env.removeOk st.results := by
  refine ⟨allowed_file_iff f, ?_, ?_, ?_, ?_⟩ <;>
    simp [index, hpost, hpart, hname, hdelay, hrej]

/-- Witness for C6: an upload named notes.txt is rejected and falls
through to the form, while the characterization is instantiated at
roster.CSV. -/
theorem C6_extension_filter_witness :
    (allowed_file "roster.CSV" = true ↔
      ∃ s t : List Char, "roster.CSV".toList = s ++ '.' :: t ∧ '.' ∉ t ∧
        py_lower t = "csv".toList) ∧
    (index ⟨true, true, "notes.txt", ⟨[("Name", ["A"])]⟩, some 1, some 0⟩
      ⟨0, fun _ => true, [0], [], false, none, false, fun s => s, "t", "g"⟩
      ⟨[], []⟩).outcome = .done .renderIndex ∧
    (index ⟨true, true, "notes.txt", ⟨[("Name", ["A"])]⟩, some 1, some 0⟩
      ⟨0, fun _ => true, [0], [], false, none, false, fun s => s, "t", "g"⟩
      ⟨[], []⟩).flashes = [] ∧
    (index ⟨true, true, "notes.txt", ⟨[("Name", ["A"])]⟩, some 1, some 0⟩
      ⟨0, fun _ => true, [0], [], false, none, false, fun s => s, "t", "g"⟩
      ⟨[], []⟩).uploads = ServerState.uploads ⟨[], []⟩ ∧
    (index ⟨true, true, "notes.txt", ⟨[("Name", ["A"])]⟩, some 1, some 0⟩
      ⟨0, fun _ => true, [0], [], false, none, false, fun s => s, "t", "g"⟩
      ⟨[], []⟩).results =
      cleanup_old_results 0 1 (fun _ => true) [] :=
  C6_extension_filter "roster.CSV"
    ⟨true, true, "notes.txt", ⟨[("Name", ["A"])]⟩, some 1, some 0⟩
    ⟨0, fun _ => true, [0], [], false, none, false, fun s => s, "t", "g"⟩
    ⟨[], []⟩ 0 (by rfl) (by rfl) (by decide) (by rfl) (by decide)

/-- Claim C7 (code bug): the spec wants every file of the results folder
served as an attachment by the download route, but send_from_directory is
missing from the flask import of src/app.py line 4 and is bound nowhere
else in the module, so the route raises NameError at request time instead
of serving the file. -/
theorem C7_download_nameError :
    module_names.contains "send_from_directory" = false ∧
    download_file "results_roster_01-01-2026.csv"
      [⟨"results_roster_01-01-2026.csv", 0, true⟩] =
      .error (.nameError "send_from_directory") :=
  ⟨by decide, by rfl⟩

/-- Claim C8: after a sweep, every regular file older than the cutoff
`now - days * 24 * 60 * 60` is gone (its removal being best effort, the
os.remove calls are assumed to succeed), and every entry at or after the
cutoff is retained unchanged. -/
theorem C8_retention (now days : Int) (removeOk : String → Bool)
    (folder : List FsFile)
    (hok : ∀ f ∈ folder, removeOk f.name = true) :
    (∀ f ∈ folder, f.regular = true → f.mtime < now - days * 24 * 60 * 60 →
      f ∉ cleanup_old_results now days removeOk folder) ∧
    (∀ f ∈ folder, now - days * 24 * 60 * 60 ≤ f.mtime →
      f ∈ cleanup_old_results now days removeOk folder) := by
  constructor
  · intro f hf hreg hold hmem
    have h1 := (List.mem_filter.mp hmem).2
    simp [hreg, hold, hok f hf] at h1
  · intro f hf hyoung
    apply List.mem_filter.mpr
    refine ⟨hf, ?_⟩
    have h2 : ¬ f.mtime < now - days * 24 * 60 * 60 := Int.not_lt.mpr hyoung
    simp [h2]

/-- Witness for C8: with a one-day threshold at time 100000, the file of
mtime 0 is swept and the file of mtime 99999 is retained. -/
theorem C8_retention_witness :
    (∀ f ∈ [FsFile.mk "old.csv" 0 true, FsFile.mk "new.csv" 99999 true],
      f.regular = true → f.mtime < 100000 - 1 * 24 * 60 * 60 →
      f ∉ cleanup_old_results 100000 1 (fun _ => true)
        [FsFile.mk "old.csv" 0 true, FsFile.mk "new.csv" 99999 true]) ∧
    (∀ f ∈ [FsFile.mk "old.csv" 0 true, FsFile.mk "new.csv" 99999 true],
      (100000 : Int) - 1 * 24 * 60 * 60 ≤ f.mtime →
      f ∈ cleanup_old_results 100000 1 (fun _ => true)
        [FsFile.mk "old.csv" 0 true, FsFile.mk "new.csv" 99999 true]) :=
  C8_retention 100000 1 (fun _ => true)
    [FsFile.mk "old.csv" 0 true, FsFile.mk "new.csv" 99999 true] (by decide)

/-- Claim C9: a POST carrying a file part with a nonempty filename but no
parseable delay field dies on delay_seconds * 1000 with an uncaught
TypeError before the extension check and before any partition logic:
nothing is flashed, no redirect is produced, and neither folder changes
beyond the sweep. -/
theorem C9_delay_typeError (req : HttpRequest) (env : Env) (st : ServerState)
    (hpost : req.methodPost = true)
    (hpart : req.hasFilePart = true)
    (hname : req.filename ≠ "")
    (hdelay : req.delay = none) :
    (index req env st).outcome =
      .uncaught (.typeError "unsupported operand types for mul NoneType and int") ∧
    (index req env st).flashes = [] ∧
    (index req env st).uploads = st.uploads ∧
    (index req env st).results =
      cleanup_old_results env.now 1 env.removeOk st.results := by
  refine ⟨?_, ?_, ?_, ?_⟩ <;>
    simp [index, hpost, hpart, hname, hdelay]

/-- Witness for C9: a txt upload with the delay field missing dies with
the uncaught TypeError even though its extension would be rejected. -/
theorem C9_delay_typeError_witness :
    (index ⟨true, true, "notes.txt", ⟨[("Name", ["A"])]⟩, some 1, none⟩
      ⟨0, fun _ => true, [0], [], false, none, false, fun s => s, "t", "g"⟩
      ⟨[], []⟩).outcome =
      .uncaught (.typeError "unsupported operand types for mul NoneType and int") ∧
    (index ⟨true, true, "notes.txt", ⟨[("Name", ["A"])]⟩, some 1, none⟩
      ⟨0, fun _ => true, [0], [], false, none, false, fun s => s, "t", "g"⟩
      ⟨[], []⟩).flashes = [] ∧
    (index ⟨true, true, "notes.txt", ⟨[("Name", ["A"])]⟩, some 1, none⟩
      ⟨0, fun _ => true, [0], [], false, none, false, fun s => s, "t", "g"⟩
      ⟨[], []⟩).uploads = ServerState.uploads ⟨[], []⟩ ∧
    (index ⟨true, true, "notes.txt", ⟨[("Name", ["A"])]⟩, some 1, none⟩
      ⟨0, fun _ => true, [0], [], false, none, false, fun s => s, "t", "g"⟩
      ⟨[], []⟩).results =
      cleanup_old_results 0 1 (fun _ => true) [] :=
  C9_delay_typeError ⟨true, true, "notes.txt", ⟨[("Name", ["A"])]⟩, some 1, none⟩
    ⟨0, fun _ => true, [0], [], false, none, false, fun s => s, "t", "g"⟩
    ⟨[], []⟩ (by rfl) (by rfl) (by decide) (by rfl)

/-- Claim C10: the saved upload is removed only on the path where the
results file has been written; on any exception inside the try block the
upload stays in the uploads folder. -/
theorem C10_upload_kept_on_failure (req : HttpRequest) (env : Env)
    (st : ServerState) (d : Int)
    (hpost : req.methodPost = true)
    (hpart : req.hasFilePart = true)
    (hname : req.filename ≠ "")
    (hdelay : req.delay = some d)
    (hallowed : allowed_file req.filename = true)
    (hfail : (∃ e, parse_step env req.content req.num_people = .error e) ∨
      ((∃ p, parse_step env req.content req.num_people = .ok p) ∧
        ∃ e, env.writeErr = some e)) :
    env.sfn req.filename ∈ (index req env st).uploads := by
  rcases hfail with ⟨e, he⟩ | ⟨⟨p, hp⟩, e, he⟩
  · simp [index, hpost, hpart, hname, hdelay, hallowed, he]
  · obtain ⟨s, r⟩ := p
    simp [index, hpost, hpart, hname, hdelay, hallowed, hp, he]

/-- Witness for C10: the failing five-person request leaves r.csv in the
uploads folder. -/
theorem C10_upload_kept_on_failure_witness :
    (fun s => s) "r.csv" ∈
      (index ⟨true, true, "r.csv", ⟨[("Name", [])]⟩, some 5, some 1⟩
        ⟨0, fun _ => true, [0], [0], false, none, false, fun s => s, "t", "g"⟩
        ⟨[], []⟩).uploads :=
  C10_upload_kept_on_failure
    ⟨true, true, "r.csv", ⟨[("Name", [])]⟩, some 5, some 1⟩
    ⟨0, fun _ => true, [0], [0], false, none, false, fun s => s, "t", "g"⟩
    ⟨[], []⟩ 1 (by rfl) (by rfl) (by decide) (by rfl) (by decide)
    (Or.inl ⟨.insufficientDataError 5, by rfl⟩)

end App
